import Mathlib

/-!
Shallow embedding of `src/alpha_pkg/src/alpha_pkg_node.cpp`
(turtlebot_blob_follower): a reactive blob-following controller for a
TurtleBot.  The three sensor callbacks (`blobsCallBack`,
`PointCloud_Callback`, `Bumper_Callback`) are modelled as explicit state
transformers over the node's global flags, and the `switch` statement in
`main` as a pure tick function `(state, snapshot) → (state, commands)`.

Machine integers are modelled as `Nat` with explicit `% 2^w` where the
C++ performs modular arithmetic (`goal_blob_area` is `uint16_t`; the
`int · uint32` product in `goal_sum_x` is computed mod `2^32`); `float`
accumulation and division are idealised as exact `ℚ` arithmetic.
Out-of-bounds vector accesses (which are undefined behaviour in the C++)
are made explicit: the callbacks return `Option`, with `none` meaning the
callback attempted a read outside the message buffer.
-/

/-- One detected blob, as delivered by cmvision on `/blobs`: colour
triplet, pixel area and centroid.  All fields are `uint32` in the
message definition; we model them as `ℕ`. -/
structure Blob where
  red : ℕ
  green : ℕ
  blue : ℕ
  area : ℕ
  x : ℕ
  y : ℕ
  deriving Repr, DecidableEq

/-- A `/blobs` message: declared blob count plus the blob array.  The
C++ iterates `i < blob_count` over `blobsIn.blobs[i]`, so `blob_count`
larger than `blobs.length` makes the loop read out of bounds. -/
structure BlobFrame where
  blob_count : ℕ
  blobs : List Blob
  deriving Repr, DecidableEq

/-- The node's global sensor-derived state: the five globals
`goal_found_flag`, `obstacle_found_flag`, `bumper_flag`,
`goal_blob_area` (a `uint16_t`, kept as a `ℕ` below `2^16`) and
`goal_x` (a `float`, idealised as `ℚ`). -/
structure GState where
  goal_found_flag : Bool
  obstacle_found_flag : Bool
  bumper_flag : Bool
  goal_blob_area : ℕ
  goal_x : ℚ
  deriving Repr, DecidableEq

/-- The initial values of the globals at program start. -/
def initGState : GState :=
  { goal_found_flag := false
    obstacle_found_flag := false
    bumper_flag := false
    goal_blob_area := 0
    goal_x := 0 }

/-- The global `image_width = 640` (a `float` in the C++). -/
def image_width : ℚ := 640

/-- The global `image_height = 480`. -/
def image_height : ℚ := 480

/-- The colour test in `blobsCallBack`: the loop body fixes `c = 1`, so
only the second row of `colors`, `{185, 66, 36}` ("Pink outdoors"), is
ever compared against the blob's triplet. -/
def isGoalColor (b : Blob) : Bool :=
  b.red == 185 && b.green == 66 && b.blue == 36

/-- The blobs the loop in `blobsCallBack` actually visits and matches:
the first `blob_count` entries, filtered by the colour test. -/
def matchedBlobs (f : BlobFrame) : List Blob :=
  (f.blobs.take f.blob_count).filter isGoalColor

/-- The exact (unbounded) sum of matched blob areas — the quantity the
spec calls `area_sum = Σ area_i`.  The C++ accumulates it in a
`uint16_t`, so the stored value is this sum mod `2^16`. -/
def matchedAreaSum (f : BlobFrame) : ℕ :=
  (matchedBlobs f).map Blob.area |>.sum

/-- The exact weighted-x sum `Σ area_i · x_i` over matched blobs, the
spec's `weighted_x`, as a rational. -/
def trueWeightedX (f : BlobFrame) : ℚ :=
  ((matchedBlobs f).map fun b => (b.area : ℚ) * (b.x : ℚ)).sum

/-- The `goal_blob_area` accumulation: `goal_blob_area += area` on a
`uint16_t`, i.e. each addition is taken mod `2^16`. -/
def wrapAreaFold (l : List ℕ) : ℕ :=
  l.foldl (fun acc a => (acc + a) % 65536) 0

/-- The `goal_sum_x` accumulation: `goal_sum_x += area * blobsIn.blobs[i].x`
where `area` is an `int` and `x` a `uint32`, so the product is computed
in unsigned 32-bit arithmetic (mod `2^32`) before being added to the
`float` accumulator (idealised as `ℚ`). -/
def wrapWeightedXFold (l : List Blob) : ℚ :=
  l.foldl (fun acc b => acc + ((b.area * b.x) % 4294967296 : ℕ)) 0

/-- The callback `blobsCallBack`: if `blob_count = 0` the body is skipped entirely
(all globals unchanged).  Otherwise the loop visits `blobs[i]` for
`i < blob_count` — out of bounds (`none`) when `blob_count` exceeds the
array length — resets `goal_blob_area` to 0, accumulates wrapped area
and weighted-x sums over colour-matched blobs, and finally sets
`goal_found_flag` (and, only when the wrapped area exceeds 3000,
`goal_x := goal_sum_x / goal_blob_area - image_width / 2`). -/
def blobsCallBack (f : BlobFrame) (s : GState) : Option GState :=
  if f.blob_count = 0 then
    some s
  else if f.blobs.length < f.blob_count then
    none
  else
    let matched := matchedBlobs f
    let area := wrapAreaFold (matched.map Blob.area)
    let sumx := wrapWeightedXFold matched
    if 3000 < area then
      some { s with goal_blob_area := area
                    goal_x := sumx / (area : ℚ) - image_width / 2
                    goal_found_flag := true }
    else
      some { s with goal_blob_area := area
                    goal_found_flag := false }

/-- A depth frame: the point cloud's `z` coordinates, row-major
(`points[640*r + c]` is row `r`, column `c`), as delivered on
`/camera/depth/points`.  A full 640×480 frame has 307200 entries. -/
abbrev DepthFrame : Type := List ℚ

/-- The near points counted by `PointCloud_Callback`: the loop visits
`points[640*(180+k)+i]` for `k < 240`, `i < 640`, i.e. exactly the
contiguous index range `[115200, 268800)` (rows 180–419, all 640
columns), and pushes every point with `z < 0.7`.  The returned value is
the final `PCL_closest_points.size()`. -/
def nearCount (cloud : DepthFrame) : ℕ :=
  ((cloud.drop 115200).take 153600).countP (fun z => z < 7/10)

/-- The callback `PointCloud_Callback`: scans the region of interest (out of bounds,
`none`, when the buffer has fewer than 268800 points) and then sets
`obstacle_found_flag` to true when more than 10 near points were found,
to false otherwise — except that when `bumper_flag` is up the flag is
left unchanged. -/
def PointCloud_Callback (cloud : DepthFrame) (s : GState) : Option GState :=
  if List.length cloud < 268800 then
    none
  else if 10 < nearCount cloud then
    some { s with obstacle_found_flag := true }
  else if ¬s.bumper_flag then
    some { s with obstacle_found_flag := false }
  else
    some s

/-- The callback `Bumper_Callback`: a `kobuki_msgs/BumperEvent` carries a `state`
byte; `state == 1` (pressed) raises both `bumper_flag` and
`obstacle_found_flag`; anything else clears `bumper_flag` only. -/
def Bumper_Callback (bumperState : ℕ) (s : GState) : GState :=
  if bumperState = 1 then
    { s with bumper_flag := true, obstacle_found_flag := true }
  else
    { s with bumper_flag := false }

/-- One sensor message, as dispatched by `ros::spinOnce`. -/
inductive SensorEvent where
  | blobs (f : BlobFrame)
  | cloud (c : DepthFrame)
  | bumper (bumperState : ℕ)

/-- Dispatch one sensor message to its callback. -/
def processEvent (e : SensorEvent) (s : GState) : Option GState :=
  match e with
  | .blobs f => blobsCallBack f s
  | .cloud c => PointCloud_Callback c s
  | .bumper b => some (Bumper_Callback b s)

/-- The global states the node can actually be in: reachable from the
initial globals by any sequence of successfully processed sensor
messages. -/
inductive Reachable : GState → Prop where
  | init : Reachable initGState
  | step {s s' : GState} (e : SensorEvent) :
      Reachable s → processEvent e s = some s' → Reachable s'

/-- The controller states of the `switch` in `main`: `state` 0–3. -/
inductive ControllerState where
  | search      -- state 0
  | approach    -- state 1
  | avoid       -- state 2
  | reached     -- state 3
  deriving Repr, DecidableEq

/-- A published `geometry_msgs/Twist`; only `linear.x` and `angular.z`
are ever nonzero. -/
structure VelocityCommand where
  linear_x : ℚ
  angular_z : ℚ
  deriving Repr, DecidableEq

/-- The global `linear_speed = 0.15`. -/
def linear_speed : ℚ := 15/100

/-- The global `angular_speed = 0.7`. -/
def angular_speed : ℚ := 7/10

/-- The global `angular_speed_thresh = 0.3`. -/
def angular_speed_thresh : ℚ := 3/10

/-- The primitive `rotate`: angular `angular_speed`, no linear motion. -/
def rotateCmd : VelocityCommand := ⟨0, angular_speed⟩

/-- The primitive `advance`: linear `linear_speed`, no rotation. -/
def advanceCmd : VelocityCommand := ⟨linear_speed, 0⟩

/-- The primitive `retreat`: linear `-linear_speed`, no rotation. -/
def retreatCmd : VelocityCommand := ⟨-linear_speed, 0⟩

/-- The primitive `seek`: P-control `angular_control = -goal_x * angular_speed * 0.7`,
rescaled to `angular_control * angular_speed_thresh / |angular_control|`
when its absolute value exceeds `angular_speed_thresh`; linear command
is the constant `linear_speed * 0.7`. -/
def seekCmd (goal_x : ℚ) : VelocityCommand :=
  let angular_control := -goal_x * angular_speed * (7/10)
  let clamped :=
    if angular_speed_thresh < |angular_control| then
      angular_control * angular_speed_thresh / |angular_control|
    else
      angular_control
  ⟨linear_speed * (7/10), clamped⟩

/-- The perception values one iteration of the `while` loop in `main`
reads: the globals as published by the callbacks. -/
structure Snapshot where
  goal_found_flag : Bool
  obstacle_found_flag : Bool
  bumper_flag : Bool
  goal_blob_area : ℕ
  goal_x : ℚ
  deriving Repr, DecidableEq

/-- The snapshot view of a global state. -/
def GState.snapshot (s : GState) : Snapshot :=
  ⟨s.goal_found_flag, s.obstacle_found_flag, s.bumper_flag,
    s.goal_blob_area, s.goal_x⟩

/-- The blocking bumper maneuver in `case 2`: 40000 `retreat` calls,
then 40000 `rotate` calls, then 40000 `advance` calls. -/
def bumperManeuver : List VelocityCommand :=
  List.replicate 40000 retreatCmd ++ List.replicate 40000 rotateCmd ++
    List.replicate 40000 advanceCmd

/-- The blocking clear-path maneuver in `case 2`: 100000 `advance`
calls. -/
def clearManeuver : List VelocityCommand :=
  List.replicate 100000 advanceCmd

/-- One iteration of the `switch(state)` in `main`: next `state` plus
the velocity commands published during the iteration, in order.  The
`goal_blob_area > image_width*image_height*0.1` comparison is a `double`
comparison against `307200 · 0.1 ≈ 30720.0000000000017`, which an
integer `goal_blob_area` exceeds exactly when it is `> 30720`. -/
def tick (st : ControllerState) (snap : Snapshot) :
    ControllerState × List VelocityCommand :=
  match st with
  | .search =>
      if snap.obstacle_found_flag then (.avoid, [])
      else if snap.goal_found_flag then (.approach, [])
      else (.search, [rotateCmd])
  | .approach =>
      if snap.obstacle_found_flag then (.avoid, [])
      else if ¬snap.goal_found_flag then (.search, [])
      else (.approach, [seekCmd snap.goal_x])
  | .avoid =>
      if 30720 < snap.goal_blob_area then (.reached, [])
      else if snap.bumper_flag then (.search, bumperManeuver)
      else if snap.obstacle_found_flag then (.avoid, [rotateCmd])
      else (.search, clearManeuver)
  | .reached => (.reached, [])

/-- The trace of loop iterations from a controller state over a list of
per-tick snapshots: each entry is that tick's resulting state and
published commands. -/
def run (st : ControllerState) :
    List Snapshot → List (ControllerState × List VelocityCommand)
  | [] => []
  | snap :: rest =>
      let r := tick st snap
      r :: run r.1 rest

/-- A frame whose single matched blob has area `2^16`: the true matched
area sum overflows the `uint16_t` accumulator, which wraps to 0. -/
def overflowFrame : BlobFrame := ⟨1, [⟨185, 66, 36, 65536, 320, 0⟩]⟩

/-- A frame whose single matched blob has `area · x = 4000 · 2^31`, a
multiple of `2^32`, so the unsigned 32-bit product fed into `goal_sum_x`
wraps to 0. -/
def xwrapFrame : BlobFrame := ⟨1, [⟨185, 66, 36, 4000, 2147483648, 0⟩]⟩

/-- A well-behaved frame: one matched blob of area 3100 centred at
`x = 320` (the optical axis). -/
def seenFrame : BlobFrame := ⟨1, [⟨185, 66, 36, 3100, 320, 0⟩]⟩

/-- The globals `blobsCallBack` produces from `seenFrame` at startup:
goal found, `goal_x = 992000/3100 - 320 = 0`. -/
def seenState : GState := ⟨true, false, false, 3100, 0⟩

/-- A full 640×480 depth frame with every point at depth 1 (far). -/
def farCloud : DepthFrame := List.replicate 307200 (1 : ℚ)

/-- A truncated depth frame: long enough to be nonempty but one entry
short of the scan's last index `268799`, so the loop reads past it. -/
def shortCloud : DepthFrame := List.replicate 268799 (0 : ℚ)

/-- A malformed blob frame: `blob_count = 1` but the blob array is
empty, so `blobs[0]` is out of bounds. -/
def malformedBlobFrame : BlobFrame := ⟨1, []⟩

/-! ### Helper lemmas -/

/-- The bumper maneuver publishes 120000 commands. -/
theorem bumperManeuver_length : bumperManeuver.length = 120000 := by
  unfold bumperManeuver
  rw [List.length_append, List.length_append, List.length_replicate,
    List.length_replicate, List.length_replicate]

/-- The clear-path maneuver publishes 100000 commands. -/
theorem clearManeuver_length : clearManeuver.length = 100000 := by
  unfold clearManeuver
  rw [List.length_replicate]

/-- The bumper maneuver publishes at least one command. -/
theorem bumperManeuver_ne_nil : bumperManeuver ≠ [] := by
  intro h
  have hl := congrArg List.length h
  rw [bumperManeuver_length] at hl
  simp at hl

/-- The clear-path maneuver publishes at least one command. -/
theorem clearManeuver_ne_nil : clearManeuver ≠ [] := by
  intro h
  have hl := congrArg List.length h
  rw [clearManeuver_length] at hl
  simp at hl

/-- Folding `(acc + a) % 2^16` over a list computes the sum mod `2^16`. -/
theorem foldl_wrap_add_mod (l : List ℕ) :
    ∀ acc : ℕ, l.foldl (fun b a => (b + a) % 65536) (acc % 65536) =
      (acc + l.sum) % 65536 := by
  induction l with
  | nil => intro acc; simp
  | cons a t ih =>
      intro acc
      simp only [List.foldl_cons, List.sum_cons, Nat.mod_add_mod]
      rw [ih (acc + a), Nat.add_assoc]

/-- The `uint16_t` accumulator `goal_blob_area` holds the matched-area
sum modulo `2^16`. -/
theorem wrapAreaFold_eq_sum_mod (l : List ℕ) :
    wrapAreaFold l = l.sum % 65536 := by
  have h := foldl_wrap_add_mod l 0
  simpa [wrapAreaFold] using h

/-- When the matched-area sum fits in 16 bits, the accumulator is exact. -/
theorem wrapAreaFold_eq_sum (l : List ℕ) (h : l.sum ≤ 65535) :
    wrapAreaFold l = l.sum := by
  rw [wrapAreaFold_eq_sum_mod, Nat.mod_eq_of_lt (by omega)]

/-- Folding `acc + g b` over a list computes `acc` plus the sum of the
mapped list. -/
theorem foldl_add_eq_sum {α : Type} (g : α → ℚ) (l : List α) :
    ∀ acc : ℚ, l.foldl (fun b a => b + g a) acc = acc + (l.map g).sum := by
  induction l with
  | nil => intro acc; simp
  | cons a t ih =>
      intro acc
      simp only [List.foldl_cons, List.map_cons, List.sum_cons]
      rw [ih (acc + g a), add_assoc]

/-- When every matched `area · x` product fits in 32 bits, the
`goal_sum_x` accumulator equals the exact weighted-x sum. -/
theorem wrapWeightedXFold_eq_sum (l : List Blob)
    (h : ∀ b ∈ l, b.area * b.x < 4294967296) :
    wrapWeightedXFold l = (l.map fun b => (b.area : ℚ) * (b.x : ℚ)).sum := by
  unfold wrapWeightedXFold
  rw [foldl_add_eq_sum (fun b => (((b.area * b.x) % 4294967296 : ℕ) : ℚ)) l 0,
    zero_add]
  refine congrArg List.sum (List.map_congr_left ?_)
  intro b hb
  rw [Nat.mod_eq_of_lt (h b hb)]
  push_cast
  ring

/-- The blob callback never touches the obstacle or bumper flags. -/
theorem blobsCallBack_preserves_flags (f : BlobFrame) {s s' : GState}
    (h : blobsCallBack f s = some s') :
    s'.obstacle_found_flag = s.obstacle_found_flag ∧
      s'.bumper_flag = s.bumper_flag := by
  unfold blobsCallBack at h
  split at h
  · cases h; exact ⟨rfl, rfl⟩
  · split at h
    · cases h
    · dsimp only at h
      split at h
      · cases h; exact ⟨rfl, rfl⟩
      · cases h; exact ⟨rfl, rfl⟩

/-- In every reachable global state, `bumper_flag` implies
`obstacle_found_flag`: the only writer of `bumper_flag := true`
(`Bumper_Callback` on a press) also raises the obstacle flag, and no
callback clears the obstacle flag while `bumper_flag` is up. -/
theorem reachable_bumper_imp_obstacle {s : GState} (h : Reachable s) :
    s.bumper_flag = true → s.obstacle_found_flag = true := by
  induction h with
  | init => intro hb; simp [initGState] at hb
  | step e hr hp ih =>
      cases e with
      | blobs f =>
          simp only [processEvent] at hp
          obtain ⟨ho, hb⟩ := blobsCallBack_preserves_flags f hp
          intro hbump
          rw [hb] at hbump
          rw [ho]
          exact ih hbump
      | cloud c =>
          simp only [processEvent] at hp
          unfold PointCloud_Callback at hp
          split at hp
          · cases hp
          · split at hp
            · cases hp; intro _; rfl
            · split at hp
              · rename_i hnb
                cases hp
                intro hbump
                exact absurd hbump hnb
              · cases hp; exact ih
      | bumper b =>
          simp only [processEvent] at hp
          unfold Bumper_Callback at hp
          split at hp
          · cases hp; intro _; rfl
          · cases hp; intro hbump; simp at hbump

/-! ### Claim C3 -/

/-- Claim C3: `Reached` (state 3) is absorbing.  Starting from
`Reached`, every later tick — whatever the snapshots contain — stays in
`Reached` and publishes no velocity command. -/
theorem c3_reached_absorbing (snaps : List Snapshot) :
    ((run ControllerState.reached snaps).all
        fun r => decide (r.1 = ControllerState.reached) && r.2.isEmpty) = true := by
  induction snaps with
  | nil => rfl
  | cons a t ih => simpa [run, tick] using ih

/-! ### Claim C4 -/

/-- Claim C4: from `Search` (state 0), `obstacle_found_flag = true`
makes the tick transition to `Avoid` (state 2) regardless of every other
snapshot field, `goal_found_flag` included. -/
theorem c4_search_obstacle_forces_avoid (snap : Snapshot)
    (h : snap.obstacle_found_flag = true) :
    (tick ControllerState.search snap).1 = ControllerState.avoid := by
  simp [tick, h]

/-- Witness for C4: a snapshot with both the obstacle and the goal flag
raised still moves `Search` to `Avoid`. -/
theorem c4_search_obstacle_forces_avoid_witness :
    (tick ControllerState.search ⟨true, true, true, 0, 0⟩).1 =
      ControllerState.avoid :=
  c4_search_obstacle_forces_avoid ⟨true, true, true, 0, 0⟩ rfl

/-! ### Claim C5 -/

/-- Claim C5: from `Avoid` (state 2), `goal_blob_area > 30720`
(`0.1 · 640 · 480`) makes the tick transition to `Reached`,
independently of the bumper and obstacle flags: the area check is the
first branch of `case 2`. -/
theorem c5_avoid_area_forces_reached (snap : Snapshot)
    (h : 30720 < snap.goal_blob_area) :
    (tick ControllerState.avoid snap).1 = ControllerState.reached := by
  simp [tick, h]

/-- Witness for C5: area 30721 with bumper and obstacle flags raised
still moves `Avoid` to `Reached`. -/
theorem c5_avoid_area_forces_reached_witness :
    (tick ControllerState.avoid ⟨false, true, true, 30721, 0⟩).1 =
      ControllerState.reached :=
  c5_avoid_area_forces_reached ⟨false, true, true, 30721, 0⟩ (by norm_num)

/-! ### Claim C7 -/

/-- Claim C7: a blob frame with `blob_count = 0` leaves the whole global
state — in particular `goal_found_flag`, `goal_x` and `goal_blob_area`
— exactly as it was: the entire callback body is guarded by
`blob_count > 0`. -/
theorem c7_empty_blob_frame_noop (f : BlobFrame) (s : GState)
    (h : f.blob_count = 0) : blobsCallBack f s = some s := by
  simp [blobsCallBack, h]

/-- Witness for C7: the empty frame leaves the initial state intact. -/
theorem c7_empty_blob_frame_noop_witness :
    blobsCallBack ⟨0, []⟩ initGState = some initGState :=
  c7_empty_blob_frame_noop ⟨0, []⟩ initGState rfl

/-! ### Concrete evaluation lemmas -/

/-- Every point of `farCloud` is beyond the 0.7 threshold. -/
theorem nearCount_farCloud : nearCount farCloud = 0 := by
  unfold nearCount farCloud
  rw [List.drop_replicate, List.take_replicate, List.countP_replicate]
  norm_num

/-- On `farCloud` with the initial globals, the depth callback reports
no obstacle and returns the state unchanged. -/
theorem pointcloud_farCloud :
    PointCloud_Callback farCloud initGState = some initGState := by
  unfold PointCloud_Callback
  rw [nearCount_farCloud]
  norm_num [farCloud, initGState]

/-- Processing `overflowFrame` wraps `goal_blob_area` to 0: the callback lowers
the goal flag and (at startup values) returns the initial state. -/
theorem blobsCallBack_overflowFrame :
    blobsCallBack overflowFrame initGState = some initGState := by
  simp [blobsCallBack, overflowFrame, matchedBlobs, isGoalColor, wrapAreaFold,
    initGState]

/-- Processing `seenFrame` raises the goal flag with a
centred offset. -/
theorem blobsCallBack_seenFrame :
    blobsCallBack seenFrame initGState = some seenState := by
  simp [blobsCallBack, seenFrame, seenState, matchedBlobs, isGoalColor,
    wrapAreaFold, wrapWeightedXFold, image_width, initGState]
  norm_num

/-! ### Claim C1 -/

/-- Claim C1 as stated is false on the code: `overflowFrame` has true
matched-area sum `65536 > 3000` yet the callback reports no goal (the
`uint16_t` accumulator wrapped to 0), and `xwrapFrame` is reported as a
goal whose `goal_x` is `-320`, not the exact area-weighted mean
`2^31 - 320` (the 32-bit `area · x` product wrapped to 0). -/
theorem c1_claim_counterexample :
    (3000 < matchedAreaSum overflowFrame ∧
      (blobsCallBack overflowFrame initGState).map GState.goal_found_flag =
        some false) ∧
    ((blobsCallBack xwrapFrame initGState).map GState.goal_found_flag =
        some true ∧
      (blobsCallBack xwrapFrame initGState).map GState.goal_x = some (-320) ∧
      trueWeightedX xwrapFrame / (matchedAreaSum xwrapFrame : ℚ) -
          image_width / 2 ≠ -320) := by
  refine ⟨⟨by decide, ?_⟩, ?_, ?_, ?_⟩
  · rw [blobsCallBack_overflowFrame]; rfl
  · simp [blobsCallBack, xwrapFrame, matchedBlobs, isGoalColor, wrapAreaFold,
      wrapWeightedXFold, image_width, initGState]
  · simp [blobsCallBack, xwrapFrame, matchedBlobs, isGoalColor, wrapAreaFold,
      wrapWeightedXFold, image_width, initGState]
    norm_num
  · simp [trueWeightedX, matchedAreaSum, matchedBlobs, xwrapFrame, isGoalColor,
      image_width]
    norm_num

/-- Claim C1 amended: restricted to frames whose matched-area sum fits
the `uint16_t` accumulator and whose matched `area · x` products fit an
unsigned 32-bit integer, the callback raises `goal_found_flag` exactly
when the matched-area sum exceeds 3000, and then `goal_x` is the exact
area-weighted mean of the matched x coordinates minus
`image_width / 2`. -/
theorem c1_goal_detection (f : BlobFrame) (s s' : GState)
    (hcount : 0 < f.blob_count)
    (hcall : blobsCallBack f s = some s')
    (hsum : matchedAreaSum f ≤ 65535)
    (hx : ∀ b ∈ matchedBlobs f, b.area * b.x < 4294967296) :
    (s'.goal_found_flag = true ↔ 3000 < matchedAreaSum f) ∧
    (s'.goal_found_flag = true →
      s'.goal_x = trueWeightedX f / (matchedAreaSum f : ℚ) -
        image_width / 2) := by
  have harea : wrapAreaFold ((matchedBlobs f).map Blob.area) =
      matchedAreaSum f := wrapAreaFold_eq_sum _ hsum
  have hwx : wrapWeightedXFold (matchedBlobs f) = trueWeightedX f :=
    wrapWeightedXFold_eq_sum _ hx
  unfold blobsCallBack at hcall
  rw [if_neg (by omega)] at hcall
  split at hcall
  · cases hcall
  · dsimp only at hcall
    rw [harea, hwx] at hcall
    split at hcall
    · rename_i hgt
      cases hcall
      exact ⟨by simpa using hgt, fun _ => rfl⟩
    · rename_i hle
      cases hcall
      refine ⟨by simpa using hle, ?_⟩
      intro hcontra
      simp at hcontra

/-- Witness for the amended C1 at `seenFrame`: goal found with offset
`992000 / 3100 - 320`. -/
theorem c1_goal_detection_witness :
    (seenState.goal_found_flag = true ↔ 3000 < matchedAreaSum seenFrame) ∧
    (seenState.goal_found_flag = true →
      seenState.goal_x = trueWeightedX seenFrame /
        (matchedAreaSum seenFrame : ℚ) - image_width / 2) :=
  c1_goal_detection seenFrame initGState seenState (by decide)
    blobsCallBack_seenFrame (by decide) (by decide)

/-! ### Claim C2 -/

/-- Claim C2: after any completed depth-frame evaluation on a reachable
global state, `obstacle_found_flag` holds exactly when more than 10
region-of-interest points are nearer than 0.7 or the bumper is in
contact, and the evaluation leaves `bumper_flag` unchanged — so a depth
frame alone never clears the obstacle flag while contact is asserted,
and the flag is false only when the count is at most 10 and there is no
contact. -/
theorem c2_depth_obstacle_iff {s s' : GState} (c : DepthFrame)
    (hreach : Reachable s) (h : PointCloud_Callback c s = some s') :
    s'.obstacle_found_flag = (decide (10 < nearCount c) || s.bumper_flag) ∧
      s'.bumper_flag = s.bumper_flag := by
  unfold PointCloud_Callback at h
  split at h
  · cases h
  · split at h
    · rename_i hnear
      cases h
      simp [hnear]
    · rename_i hnear
      split at h
      · rename_i hnb
        have hb : s.bumper_flag = false := by
          revert hnb; cases s.bumper_flag <;> simp
        cases h
        simp [hnear, hb]
      · rename_i hnb
        have hb : s.bumper_flag = true := by
          revert hnb; cases s.bumper_flag <;> simp
        have hobs := reachable_bumper_imp_obstacle hreach hb
        cases h
        simp [hnear, hb, hobs]

/-- Witness for C2: the initial state is reachable, and a far-only
640×480 frame leaves the obstacle flag equal to
`(10 < 0) || bumper = false`. -/
theorem c2_depth_obstacle_iff_witness :
    initGState.obstacle_found_flag =
        (decide (10 < nearCount farCloud) || initGState.bumper_flag) ∧
      initGState.bumper_flag = initGState.bumper_flag :=
  c2_depth_obstacle_iff farCloud Reachable.init pointcloud_farCloud

/-! ### Claim C6 -/

/-- Claim C6: `seek` always publishes `linear.x = 0.15 · 0.7 = 0.105`,
and publishes `angular.z = -goal_x · (0.7 · 0.7)` when that value's
magnitude is at most 0.3, and otherwise `0.3` carrying its sign. -/
theorem c6_seek_p_control_clamp (g : ℚ) :
    (seekCmd g).linear_x = 105/1000 ∧
    (seekCmd g).angular_z =
      (if |(-(g * (49/100)))| ≤ 3/10 then -(g * (49/100))
       else if 0 < -(g * (49/100)) then (3/10 : ℚ) else -(3/10)) := by
  have hval : -g * angular_speed * (7/10) = -(g * (49/100)) := by
    unfold angular_speed; ring
  unfold seekCmd angular_speed_thresh
  dsimp only
  rw [hval]
  refine ⟨by norm_num [linear_speed], ?_⟩
  by_cases hth : (3/10 : ℚ) < |(-(g * (49/100)))|
  · rw [if_pos hth, if_neg (not_le.mpr hth)]
    have hne : -(g * (49/100)) ≠ 0 := by
      intro h0
      rw [h0, abs_zero] at hth
      norm_num at hth
    rcases hne.lt_or_lt with hneg | hpos
    · rw [abs_of_neg hneg, if_neg (not_lt.mpr hneg.le)]
      rw [div_neg, mul_comm, mul_div_assoc, div_self hneg.ne, mul_one]
    · rw [abs_of_pos hpos, if_pos hpos]
      rw [mul_comm, mul_div_assoc, div_self hpos.ne', mul_one]
  · rw [if_neg hth, if_pos (not_lt.mp hth)]

/-! ### Claim C8 -/

/-- Claim C8 is the spec's intent, but the code has no bounds checks:
on a blob frame declaring one blob but carrying none, the loop reads
`blobs[0]` out of bounds, and on any depth buffer shorter than 268800
points (including the empty one) the region-of-interest scan reads past
the buffer's end, instead of dropping the frame. -/
theorem c8_malformed_frame_reads_out_of_bounds :
    blobsCallBack malformedBlobFrame initGState = none ∧
    PointCloud_Callback ([] : DepthFrame) initGState = none ∧
    PointCloud_Callback shortCloud initGState = none := by
  refine ⟨?_, ?_, ?_⟩
  · simp [blobsCallBack, malformedBlobFrame]
  · simp [PointCloud_Callback]
  · unfold PointCloud_Callback shortCloud
    rw [List.length_replicate]
    norm_num

/-! ### Claim C9 -/

/-- Claim C9 as stated is false on the code: a tick in `Reached`
publishes no command at all, and a `Search` tick that sees an obstacle
transitions without publishing either. -/
theorem c9_claim_counterexample :
    (tick ControllerState.reached ⟨false, false, false, 0, 0⟩).2 = [] ∧
    (tick ControllerState.search ⟨true, true, false, 0, 0⟩).2 = [] := by
  exact ⟨rfl, rfl⟩

/-- Claim C9 amended: a tick publishes no command exactly when it is in
`Reached`, moves to `Reached`, or leaves `Search`/`Approach` for another
state; and it publishes more than one command exactly during an `Avoid`
maneuver (the bumper retreat–rotate–advance sequence or the clear-path
advance burst). -/
theorem c9_emission_characterisation (st : ControllerState) (snap : Snapshot) :
    ((tick st snap).2 = [] ↔
      st = ControllerState.reached ∨
        (tick st snap).1 = ControllerState.reached ∨
        ((st = ControllerState.search ∨ st = ControllerState.approach) ∧
          (tick st snap).1 ≠ st)) ∧
    (1 < (tick st snap).2.length ↔
      st = ControllerState.avoid ∧ ¬(30720 < snap.goal_blob_area) ∧
        (snap.bumper_flag = true ∨ snap.obstacle_found_flag = false)) := by
  obtain ⟨gf, obs, bf, area, gx⟩ := snap
  cases st <;> cases gf <;> cases obs <;> cases bf <;>
    by_cases harea : 30720 < area <;>
    simp [tick, harea, bumperManeuver_ne_nil, clearManeuver_ne_nil,
      bumperManeuver_length, clearManeuver_length]

/-! ### Claim C10 -/

/-- Claim C10: for every processed nonempty blob frame the stored
`goal_blob_area` is the true matched-area sum reduced mod `2^16`; and
concretely, `overflowFrame` has true sum `65536 > 65535`, wraps to
`0 ≤ 3000`, lowers the goal flag, and the resulting snapshot does not
let `Avoid` escape to `Reached`. -/
theorem c10_goal_area_wraps :
    (∀ (f : BlobFrame) (s s' : GState), 0 < f.blob_count →
        blobsCallBack f s = some s' →
        s'.goal_blob_area = matchedAreaSum f % 65536) ∧
      (65535 < matchedAreaSum overflowFrame ∧
        (blobsCallBack overflowFrame initGState).map GState.goal_blob_area =
          some 0 ∧
        (blobsCallBack overflowFrame initGState).map GState.goal_found_flag =
          some false ∧
        (tick ControllerState.avoid (GState.snapshot initGState)).1 ≠
          ControllerState.reached) := by
  constructor
  · intro f s s' hcount hcall
    have harea := wrapAreaFold_eq_sum_mod ((matchedBlobs f).map Blob.area)
    unfold blobsCallBack at hcall
    rw [if_neg (by omega)] at hcall
    split at hcall
    · cases hcall
    · dsimp only at hcall
      split at hcall
      · cases hcall; exact harea
      · cases hcall; exact harea
  · refine ⟨by decide, ?_, ?_, ?_⟩
    · rw [blobsCallBack_overflowFrame]; rfl
    · rw [blobsCallBack_overflowFrame]; rfl
    · simp [tick, GState.snapshot, initGState]

/-- Witness for C10's universal part at `overflowFrame`: the stored
area is `65536 % 65536 = 0`. -/
theorem c10_goal_area_wraps_witness :
    initGState.goal_blob_area = matchedAreaSum overflowFrame % 65536 :=
  c10_goal_area_wraps.1 overflowFrame initGState initGState (by decide)
    blobsCallBack_overflowFrame
